import Mathlib

/-!
Shallow embedding of `src/server.js` (m-space-invaders session & relay
service): the in-memory session table (`gameSessions`, a JS `Map`), the
four JSON endpoints, and the PayPal IPN handler.  Outbound HTTP calls
(PayPal verifier, PocketBase store) are modelled as oracle inputs: an
`Except Unit α` value, where `.error` stands for a thrown exception
(network/transport failure) and `.ok` for a received reply.
-/

namespace Server

/-- A JavaScript value as it can appear in a parsed JSON request body.
Numbers are restricted to integers (`Int`): every level/score value the
claims exercise is an integer, and for a safe integer `n`, `String(n)` is
its plain decimal form, so `parseInt`/`parseFloat` recover `n` exactly. -/
inductive JVal where
  | jundef
  | jnull
  | jbool (b : Bool)
  | jnum (n : Int)
  | jstr (s : String)
deriving DecidableEq, Repr

/-- JS truthiness: `undefined`, `null`, `false`, `0` and `""` are falsy,
everything else is truthy.  This is the test performed by `if (!level)`
and `if (!score || !player_name)` in the source. -/
def truthy : JVal → Bool
  | .jundef => false
  | .jnull => false
  | .jbool b => b
  | .jnum n => n != 0
  | .jstr s => s != ""

/-- Characters `parseInt`/`parseFloat` skip as leading whitespace. -/
def isJsSpace (c : Char) : Bool :=
  c = ' ' || c = '\t' || c = '\n' || c = '\r'

/-- Read an optional sign character, returning the sign and the rest. -/
def readSign : List Char → Int × List Char
  | '-' :: rest => (-1, rest)
  | '+' :: rest => (1, rest)
  | cs => (1, cs)

/-- Value of a list of decimal digit characters. -/
def digitsVal (ds : List Char) : Nat :=
  ds.foldl (fun a c => a * 10 + (c.toNat - 48)) 0

/-- `parseInt(s, 10)`: skip whitespace, optional sign, then the longest
prefix of decimal digits; `NaN` (here `none`) when no digit is found. -/
def parseIntCore (cs : List Char) : Option Int :=
  let cs1 := cs.dropWhile isJsSpace
  let sc := readSign cs1
  let ds := sc.2.takeWhile Char.isDigit
  if ds.isEmpty then none else some (sc.1 * (digitsVal ds : Int))

/-- `parseInt(v, 10)` after JS string coercion of `v`.  `String` of
`undefined`/`null`/booleans yields a non-numeric word, hence `NaN`. -/
def jsParseInt : JVal → Option Int
  | .jnum n => some n
  | .jstr s => parseIntCore s.toList
  | _ => none

/-- The exact rational `mant * 10 ^ e10`. -/
def decValue (mant : Int) (e10 : Int) : ℚ :=
  if 0 ≤ e10 then mkRat (mant * (10 : Int) ^ e10.toNat) 1
  else mkRat mant ((10 : Nat) ^ (-e10).toNat)

/-- `parseFloat(s)` over exact decimals (the spec reads `mc_gross`
"parsed as a decimal"): skip whitespace, optional sign, integer digits,
optional fraction part, optional exponent part; `NaN` (here `none`)
when no digit is found before the exponent.  Values are exact
rationals. -/
def parseFloatCore (cs : List Char) : Option ℚ :=
  let cs1 := cs.dropWhile isJsSpace
  let sc := readSign cs1
  let ip := sc.2.takeWhile Char.isDigit
  let cs2 := sc.2.dropWhile Char.isDigit
  let fp := match cs2 with
    | '.' :: rest => rest.takeWhile Char.isDigit
    | _ => []
  let cs3 := match cs2 with
    | '.' :: rest => rest.dropWhile Char.isDigit
    | _ => cs2
  if ip.isEmpty && fp.isEmpty then none
  else
    let expo : Int := match cs3 with
      | 'e' :: rest | 'E' :: rest =>
        let es := readSign rest
        let eds := es.2.takeWhile Char.isDigit
        if eds.isEmpty then 0 else es.1 * (digitsVal eds : Int)
      | _ => 0
    some (decValue (sc.1 * (digitsVal (ip ++ fp) : Int)) (expo - fp.length))

/-- The configured continue price: the literal `1.99` of the source. -/
def price : ℚ := mkRat 199 100

/-- One entry of `gameSessions`: `{ level, hasPurchasedContinue }`.
`level` is `none` when `parseInt` produced `NaN`. -/
structure Session where
  level : Option Int
  hasPurchasedContinue : Bool
deriving DecidableEq, Repr

/-- The `gameSessions` map, as its ordered list of key/value entries
(JS `Map` preserves insertion order; `set` on an existing key updates
the entry in place). -/
abbrev SessionMap := List (String × Session)

/-- `gameSessions.has(k)`. -/
def mapHas (m : SessionMap) (k : String) : Bool :=
  m.any (fun p => p.1 == k)

/-- `gameSessions.get(k)` (`none` for `undefined`). -/
def mapGet (m : SessionMap) (k : String) : Option Session :=
  match m with
  | [] => none
  | (k1, v1) :: rest => if k1 = k then some v1 else mapGet rest k

/-- `gameSessions.set(k, v)`: replace the entry in place when the key is
present, otherwise append a new entry. -/
def mapSet (m : SessionMap) (k : String) (v : Session) : SessionMap :=
  match m with
  | [] => [(k, v)]
  | (k1, v1) :: rest =>
    if k1 = k then (k, v) :: rest else (k1, v1) :: mapSet rest k v

/-- Outcome of `POST /api/create-session`. -/
inductive CreateResult where
  | validationError
  | okToken (sessionToken : String)
deriving DecidableEq, Repr

/-- HTTP status of a `create-session` outcome (`res.json` defaults to 200). -/
def CreateResult.status : CreateResult → Nat
  | .validationError => 400
  | .okToken _ => 200

/-- `POST /api/create-session`.  `level` is `req.body.level` (`.jundef`
when the field is absent); `freshTok` stands for the 64-hex-character
token drawn from `crypto.randomBytes(32)`.  Returns the response and the
session table after the call. -/
def createSession (level : JVal) (freshTok : String) (m : SessionMap) :
    CreateResult × SessionMap :=
  if !truthy level then (.validationError, m)
  else (.okToken freshTok,
        mapSet m freshTok { level := jsParseInt level, hasPurchasedContinue := false })

/-- The fields the IPN handler destructures from the form-encoded body;
each is `none` when the field is absent (`undefined`). -/
structure IpnData where
  payment_status : Option String
  mc_gross : Option String
  mc_currency : Option String
  custom : Option String
deriving DecidableEq, Repr

/-- `parseFloat(mc_gross)`: an absent field coerces to the string
`"undefined"`, which parses to `NaN` (`none`). -/
def ipnGross (d : IpnData) : Option ℚ :=
  match d.mc_gross with
  | none => none
  | some s => parseFloatCore s.toList

/-- Outcome of `POST /api/paypal-ipn`, one constructor per response the
handler can send. -/
inductive IpnResult where
  | serverError
  | verificationFailed
  | notCompleted
  | invalidAmount
  | invalidSession
  | granted
deriving DecidableEq, Repr

/-- HTTP status of an IPN outcome. -/
def IpnResult.status : IpnResult → Nat
  | .serverError => 500
  | .verificationFailed => 400
  | .notCompleted => 200
  | .invalidAmount => 200
  | .invalidSession => 400
  | .granted => 200

/-- `POST /api/paypal-ipn`.  `verifier` is the oracle for the round trip
to the PayPal verification endpoint: `.error ()` when `fetch`/`text()`
throws (caught by the handler's `catch`), `.ok t` when the reply body is
the text `t`.  Returns the response and the session table after the
call.  The inner `none` branch of `mapGet` mirrors the `TypeError` that
reading `.hasPurchasedContinue` of `undefined` would raise (caught as a
500); it is unreachable because `has` was just checked. -/
def handlePaymentNotification (verifier : Except Unit String) (d : IpnData)
    (m : SessionMap) : IpnResult × SessionMap :=
  match verifier with
  | .error _ => (.serverError, m)
  | .ok verificationResult =>
    if verificationResult != "VERIFIED" then (.verificationFailed, m)
    else if d.payment_status != some "Completed" then (.notCompleted, m)
    else if d.mc_currency != some "USD" || ipnGross d != some price then
      (.invalidAmount, m)
    else
      match d.custom with
      | none => (.invalidSession, m)
      | some sessionToken =>
        if sessionToken == "" || !mapHas m sessionToken then (.invalidSession, m)
        else
          match mapGet m sessionToken with
          | none => (.serverError, m)
          | some sessionData =>
            (.granted,
             mapSet m sessionToken { sessionData with hasPurchasedContinue := true })

/-- Outcome of `GET /api/check-continue/:token`. -/
inductive CheckResult where
  | notFound
  | okSession (hasPurchasedContinue : Bool) (level : Option Int)
deriving DecidableEq, Repr

/-- HTTP status of a `check-continue` outcome. -/
def CheckResult.status : CheckResult → Nat
  | .notFound => 404
  | .okSession _ _ => 200

/-- `GET /api/check-continue/:token`.  Returns the response and the
session table after the call (the cleanup `gameSessions.delete(token)`
is commented out in the source, so the table is returned unchanged).
The inner `none` branch is unreachable, as in the IPN handler. -/
def checkContinue (token : String) (m : SessionMap) : CheckResult × SessionMap :=
  if token == "" || !mapHas m token then (.notFound, m)
  else
    match mapGet m token with
    | none => (.notFound, m)
    | some sessionData =>
      (.okSession sessionData.hasPurchasedContinue sessionData.level, m)

/-- A reply received from the PocketBase store: `response.ok` and the
body (opaque here). -/
structure StoreReply where
  ok : Bool
  body : String
deriving DecidableEq, Repr

/-- Outcome of `GET /api/scores`. -/
inductive ListResult where
  | upstreamError
  | okData (data : String)
deriving DecidableEq, Repr

/-- HTTP status of a `list-scores` outcome. -/
def ListResult.status : ListResult → Nat
  | .upstreamError => 500
  | .okData _ => 200

/-- Response body of a `list-scores` outcome: the 500 body is the fixed
sanitized message of the source, never the upstream detail. -/
def ListResult.body : ListResult → String
  | .upstreamError => "Failed to fetch high scores"
  | .okData data => data

/-- `GET /api/scores`.  `store` is the oracle for the outbound fetch:
`.error ()` for a transport failure (thrown, caught), `.ok r` for a
received response.  A non-ok status is turned into a thrown `Error`,
also caught, yielding the same generic 500. -/
def listScores (store : Except Unit StoreReply) : ListResult :=
  match store with
  | .error _ => .upstreamError
  | .ok response =>
    if !response.ok then .upstreamError else .okData response.body

/-- The three fields destructured from the body of `POST /api/scores`. -/
structure ScoreBody where
  score : JVal
  player_name : JVal
  level : JVal
deriving DecidableEq, Repr

/-- The JSON payload forwarded to the store by `submit_score`. -/
structure ScorePayload where
  score : JVal
  player_name : JVal
  level : JVal
deriving DecidableEq, Repr

/-- Outcome of `POST /api/scores`. -/
inductive SubmitResult where
  | validationError
  | upstreamError
  | created (data : String)
deriving DecidableEq, Repr

/-- HTTP status of a `submit-score` outcome. -/
def SubmitResult.status : SubmitResult → Nat
  | .validationError => 400
  | .upstreamError => 500
  | .created _ => 201

/-- Response body of the error outcomes of `submit-score` (the upstream
error text is only logged, never sent to the caller). -/
def SubmitResult.body : SubmitResult → String
  | .validationError => "Score and player_name are required"
  | .upstreamError => "Failed to save high score"
  | .created data => data

/-- `POST /api/scores`.  Returns the response together with the payload
forwarded to the store (`none` when validation failed before any fetch).
`level: level || 1` forwards `level` when truthy, else the number 1. -/
def submitScore (b : ScoreBody) (store : Except Unit StoreReply) :
    SubmitResult × Option ScorePayload :=
  if !truthy b.score || !truthy b.player_name then (.validationError, none)
  else
    let payload : ScorePayload :=
      { score := b.score
        player_name := b.player_name
        level := if truthy b.level then b.level else .jnum 1 }
    match store with
    | .error _ => (.upstreamError, some payload)
    | .ok response =>
      if !response.ok then (.upstreamError, some payload)
      else (.created response.body, some payload)

/-- The acceptance checks of the IPN handler on a verified payload:
`payment_status` is `Completed`, the currency is `USD` and `mc_gross`
parses to exactly the configured price. -/
def paymentChecksPass (d : IpnData) : Bool :=
  d.payment_status == some "Completed" &&
  d.mc_currency == some "USD" &&
  ipnGross d == some price

/-- The `custom` field does not reference an existing session: it is
absent, or names a token the table does not contain. -/
def customUnknown (d : IpnData) (m : SessionMap) : Bool :=
  match d.custom with
  | none => true
  | some t => !mapHas m t

/-- The store interaction failed: the fetch threw, or the response had
a non-success status (`!response.ok`). -/
def storeFailed (r : Except Unit StoreReply) : Bool :=
  match r with
  | .error _ => true
  | .ok rep => !rep.ok

/-! ### Lemmas about the session map -/

theorem mapHas_eq_isSome (m : SessionMap) (k : String) :
    mapHas m k = (mapGet m k).isSome := by
  induction m with
  | nil => rfl
  | cons p rest ih =>
    obtain ⟨k1, v1⟩ := p
    simp only [mapHas, List.any_cons] at ih ⊢
    by_cases h : k1 = k
    · simp [mapGet, h]
    · simp [mapGet, h, ih]

theorem mapGet_mapSet_self (m : SessionMap) (k : String) (v : Session) :
    mapGet (mapSet m k v) k = some v := by
  induction m with
  | nil => simp [mapSet, mapGet]
  | cons p rest ih =>
    obtain ⟨k1, v1⟩ := p
    by_cases h : k1 = k
    · simp [mapSet, mapGet, h]
    · simp [mapSet, mapGet, h, ih]

theorem mapGet_mapSet_ne (m : SessionMap) (k : String) (v : Session)
    (k1 : String) (h : k1 ≠ k) :
    mapGet (mapSet m k v) k1 = mapGet m k1 := by
  have h' : k ≠ k1 := Ne.symm h
  induction m with
  | nil => simp [mapSet, mapGet, h']
  | cons p rest ih =>
    obtain ⟨k2, v2⟩ := p
    by_cases h2 : k2 = k
    · subst h2
      simp [mapSet, mapGet, h']
    · by_cases h3 : k2 = k1
      · simp [mapSet, mapGet, h2, h3, h]
      · simp [mapSet, mapGet, h2, h3, ih]

theorem mapSet_self_of_get (m : SessionMap) (k : String) (v : Session)
    (h : mapGet m k = some v) : mapSet m k v = m := by
  induction m with
  | nil => simp [mapGet] at h
  | cons p rest ih =>
    obtain ⟨k1, v1⟩ := p
    by_cases h1 : k1 = k
    · subst h1
      simp [mapGet] at h
      simp [mapSet, h]
    · simp [mapGet, h1] at h
      simp [mapSet, h1, ih h]

theorem mapHas_true_of_get (m : SessionMap) (k : String) (s : Session)
    (h : mapGet m k = some s) : mapHas m k = true := by
  rw [mapHas_eq_isSome, h]
  rfl

theorem mapHas_mapSet_self (m : SessionMap) (k : String) (v : Session) :
    mapHas (mapSet m k v) k = true := by
  rw [mapHas_eq_isSome, mapGet_mapSet_self]
  rfl

/-! ### Structural lemmas about the IPN handler -/

/-- Every run of the IPN handler either leaves the table unchanged, or
replaces exactly the session named by `custom` with the same session
whose `hasPurchasedContinue` is set to `true`. -/
theorem ipn_table_eq_or_set (v : Except Unit String) (d : IpnData) (m : SessionMap) :
    (handlePaymentNotification v d m).2 = m ∨
    ∃ tok s, d.custom = some tok ∧ mapGet m tok = some s ∧
      (handlePaymentNotification v d m).2 =
        mapSet m tok { s with hasPurchasedContinue := true } := by
  unfold handlePaymentNotification
  cases v with
  | error e => exact Or.inl rfl
  | ok r =>
    repeat'
      first
      | exact Or.inl rfl
      | exact Or.inr ⟨_, _, by assumption, by assumption, rfl⟩
      | split

/-- On a verified, fully qualifying notification the handler grants the
continue: it answers `granted` and updates exactly the named session. -/
theorem ipn_granted_eq (d : IpnData) (m : SessionMap) (tok : String) (s : Session)
    (hcustom : d.custom = some tok) (htok : tok ≠ "")
    (hget : mapGet m tok = some s)
    (hstatus : d.payment_status = some "Completed")
    (hcur : d.mc_currency = some "USD")
    (hgross : ipnGross d = some price) :
    handlePaymentNotification (.ok "VERIFIED") d m =
      (.granted, mapSet m tok { s with hasPurchasedContinue := true }) := by
  have hhas : mapHas m tok = true := mapHas_true_of_get m tok s hget
  simp [handlePaymentNotification, hstatus, hcur, hgross, hcustom, htok, hhas, hget]

/-- The check-continue endpoint never changes the session table (the
cleanup path is commented out in the source). -/
theorem checkContinue_table_eq (t : String) (m : SessionMap) :
    (checkContinue t m).2 = m := by
  unfold checkContinue
  repeat' first | rfl | split

/-! ### Claims -/

/-- C1: if the verifier's reply is anything other than the exact literal
string `"VERIFIED"` — a different reply text, or an exception standing
for network and non-200 failures — then the IPN handler answers an error
status (400 on a non-VERIFIED reply, 500 on an exception) and the
session table after the call equals the table before the call. -/
theorem ipn_non_verified_mutates_nothing (v : Except Unit String)
    (d : IpnData) (m : SessionMap)
    (h : ∀ t, v = .ok t → t ≠ "VERIFIED") :
    (handlePaymentNotification v d m).2 = m ∧
    (handlePaymentNotification v d m).1.status =
      (match v with
       | .error _ => 500
       | .ok _ => 400) := by
  cases v with
  | error e => exact ⟨rfl, rfl⟩
  | ok t =>
    have ht : t ≠ "VERIFIED" := h t rfl
    refine ⟨?_, ?_⟩ <;> simp [handlePaymentNotification, ht, IpnResult.status]

/-- C1 witness: a concrete `INVALID` reply on a nonempty table. -/
theorem ipn_non_verified_mutates_nothing_witness :
    (handlePaymentNotification (Except.ok "INVALID")
        ⟨some "Completed", some "1.99", some "USD", some "t"⟩
        [("t", ⟨some 1, false⟩)]).2 = [("t", ⟨some 1, false⟩)] ∧
    (handlePaymentNotification (Except.ok "INVALID")
        ⟨some "Completed", some "1.99", some "USD", some "t"⟩
        [("t", ⟨some 1, false⟩)]).1.status =
      (match (Except.ok "INVALID" : Except Unit String) with
       | .error _ => 500
       | .ok _ => 400) :=
  ipn_non_verified_mutates_nothing (Except.ok "INVALID")
    ⟨some "Completed", some "1.99", some "USD", some "t"⟩
    [("t", ⟨some 1, false⟩)]
    (fun t ht => by
      injection ht with h2
      subst h2
      decide)

/-- C3: on a verified notification, when the payment checks fail
(`payment_status` other than `Completed`, or wrong currency/amount) the
handler answers 200 and leaves the table unchanged; when all payment
checks pass but `custom` does not reference an existing session it
answers 400 and still leaves the table unchanged. -/
theorem ipn_policy_rejection (d : IpnData) (m : SessionMap)
    (h : paymentChecksPass d = false ∨
         (paymentChecksPass d = true ∧ customUnknown d m = true)) :
    (handlePaymentNotification (.ok "VERIFIED") d m).2 = m ∧
    (handlePaymentNotification (.ok "VERIFIED") d m).1.status =
      (if paymentChecksPass d then 400 else 200) := by
  rcases h with hfail | ⟨hpass, hcu⟩
  · by_cases h1 : d.payment_status = some "Completed" <;>
      by_cases h2 : d.mc_currency = some "USD" <;>
        by_cases h3 : ipnGross d = some price <;>
          simp [paymentChecksPass, h1, h2, h3] at hfail ⊢ <;>
            simp [handlePaymentNotification, IpnResult.status, h1, h2, h3]
  · simp only [paymentChecksPass, Bool.and_eq_true, beq_iff_eq] at hpass
    obtain ⟨⟨h1, h2⟩, h3⟩ := hpass
    cases hc : d.custom with
    | none =>
      simp [handlePaymentNotification, IpnResult.status, paymentChecksPass,
        h1, h2, h3, hc]
    | some t =>
      have hhas : mapHas m t = false := by
        simpa [customUnknown, hc] using hcu
      simp [handlePaymentNotification, IpnResult.status, paymentChecksPass,
        h1, h2, h3, hc, hhas]

/-- C3 witness: a verified notification with `payment_status` equal to
`Pending` answers 200 and changes nothing. -/
theorem ipn_policy_rejection_witness :
    (handlePaymentNotification (.ok "VERIFIED")
        ⟨some "Pending", some "1.99", some "USD", some "t"⟩
        [("t", ⟨some 1, false⟩)]).2 = [("t", ⟨some 1, false⟩)] ∧
    (handlePaymentNotification (.ok "VERIFIED")
        ⟨some "Pending", some "1.99", some "USD", some "t"⟩
        [("t", ⟨some 1, false⟩)]).1.status = 200 := by
  have h := ipn_policy_rejection
    ⟨some "Pending", some "1.99", some "USD", some "t"⟩
    [("t", ⟨some 1, false⟩)] (Or.inl (by decide))
  exact ⟨h.1, h.2⟩

/-- C4: on a verified `Completed` notification naming a known session,
the handler grants the continue (sets `hasPurchasedContinue := true` on
exactly that session) precisely when the currency is `USD` and
`mc_gross` parses, as an exact decimal, to the configured price `1.99`;
any other currency or amount leaves the table unchanged. -/
theorem ipn_price_gate (d : IpnData) (m : SessionMap) (tok : String)
    (s : Session) (hcustom : d.custom = some tok) (htok : tok ≠ "")
    (hget : mapGet m tok = some s)
    (hstatus : d.payment_status = some "Completed") :
    handlePaymentNotification (.ok "VERIFIED") d m =
      (if d.mc_currency = some "USD" ∧ ipnGross d = some price then
        (.granted, mapSet m tok { s with hasPurchasedContinue := true })
      else (.invalidAmount, m)) ∧
    (d.mc_currency = some "USD" ∧ ipnGross d = some price →
      (mapGet (handlePaymentNotification (.ok "VERIFIED") d m).2 tok).map
        Session.hasPurchasedContinue = some true) := by
  by_cases h2 : d.mc_currency = some "USD" <;>
    by_cases h3 : ipnGross d = some price
  · have hgr := ipn_granted_eq d m tok s hcustom htok hget hstatus h2 h3
    refine ⟨by rw [if_pos ⟨h2, h3⟩]; exact hgr, fun _ => ?_⟩
    rw [hgr]
    simp [mapGet_mapSet_self]
  all_goals
    refine ⟨?_, fun hcontra => absurd hcontra (by tauto)⟩
    rw [if_neg (by tauto)]
    simp [handlePaymentNotification, hstatus, h2, h3]

/-- C4 witness: a qualifying `1.99 USD` notification grants the
continue on the named session. -/
theorem ipn_price_gate_witness :
    handlePaymentNotification (.ok "VERIFIED")
        ⟨some "Completed", some "1.99", some "USD", some "t"⟩
        [("t", ⟨some 3, false⟩)] =
      (.granted, [("t", ⟨some 3, true⟩)]) ∧
    (mapGet (handlePaymentNotification (.ok "VERIFIED")
        ⟨some "Completed", some "1.99", some "USD", some "t"⟩
        [("t", ⟨some 3, false⟩)]).2 "t").map
      Session.hasPurchasedContinue = some true := by
  have h := ipn_price_gate
    ⟨some "Completed", some "1.99", some "USD", some "t"⟩
    [("t", ⟨some 3, false⟩)] "t" ⟨some 3, false⟩
    (by decide) (by decide) (by decide) (by decide)
  exact ⟨by rw [h.1]; decide, h.2 (by decide)⟩

/-- C10: replaying a qualifying notification that has already granted
the continue answers `granted` (200) again and leaves the whole table
exactly as it was: no deduplication rejects it, and no field changes. -/
theorem ipn_replay_idempotent (d : IpnData) (m : SessionMap) (tok : String)
    (s : Session) (hcustom : d.custom = some tok) (htok : tok ≠ "")
    (hget : mapGet m tok = some s)
    (hstatus : d.payment_status = some "Completed")
    (hcur : d.mc_currency = some "USD") (hgross : ipnGross d = some price) :
    handlePaymentNotification (.ok "VERIFIED") d
        (handlePaymentNotification (.ok "VERIFIED") d m).2 =
      (.granted, (handlePaymentNotification (.ok "VERIFIED") d m).2) ∧
    IpnResult.granted.status = 200 := by
  have h1 := ipn_granted_eq d m tok s hcustom htok hget hstatus hcur hgross
  have hget1 : mapGet (handlePaymentNotification (.ok "VERIFIED") d m).2 tok =
      some { s with hasPurchasedContinue := true } := by
    rw [h1]
    exact mapGet_mapSet_self m tok _
  have h2 := ipn_granted_eq d (handlePaymentNotification (.ok "VERIFIED") d m).2
    tok { s with hasPurchasedContinue := true } hcustom htok hget1 hstatus hcur hgross
  have hv : ({ { s with hasPurchasedContinue := true } with
      hasPurchasedContinue := true } : Session) =
      { s with hasPurchasedContinue := true } := rfl
  rw [hv] at h2
  refine ⟨?_, rfl⟩
  rw [h2, mapSet_self_of_get _ _ _ hget1]

/-- C10 witness: a concrete replay on an already-granted session. -/
theorem ipn_replay_idempotent_witness :
    handlePaymentNotification (.ok "VERIFIED")
        ⟨some "Completed", some "1.99", some "USD", some "t"⟩
        (handlePaymentNotification (.ok "VERIFIED")
          ⟨some "Completed", some "1.99", some "USD", some "t"⟩
          [("t", ⟨some 3, false⟩)]).2 =
      (.granted, (handlePaymentNotification (.ok "VERIFIED")
          ⟨some "Completed", some "1.99", some "USD", some "t"⟩
          [("t", ⟨some 3, false⟩)]).2) ∧
    IpnResult.granted.status = 200 :=
  ipn_replay_idempotent
    ⟨some "Completed", some "1.99", some "USD", some "t"⟩
    [("t", ⟨some 3, false⟩)] "t" ⟨some 3, false⟩
    (by decide) (by decide) (by decide) (by decide) (by decide) (by decide)

/-- C2: a session whose `hasPurchasedContinue` flag is true stays true
for the same token after any of the three session operations —
create-session (with a fresh token), the IPN handler, and
check-continue.  The flag never reverts from true to false. -/
theorem purchased_flag_monotone (m : SessionMap) (tok : String) (s : Session)
    (hget : mapGet m tok = some s) (hp : s.hasPurchasedContinue = true) :
    (∀ lvl ft, mapHas m ft = false →
      (mapGet (createSession lvl ft m).2 tok).map Session.hasPurchasedContinue =
        some true) ∧
    (∀ v d,
      (mapGet (handlePaymentNotification v d m).2 tok).map
        Session.hasPurchasedContinue = some true) ∧
    (∀ t,
      (mapGet (checkContinue t m).2 tok).map Session.hasPurchasedContinue =
        some true) := by
  refine ⟨?_, ?_, ?_⟩
  · intro lvl ft hft
    have hne : tok ≠ ft := by
      intro hh
      subst hh
      rw [mapHas_eq_isSome, hget] at hft
      simp at hft
    cases hl : truthy lvl <;> simp [createSession, hl]
    · simp [hget, hp]
    · rw [mapGet_mapSet_ne _ _ _ _ hne, hget]
      simp [hp]
  · intro v d
    rcases ipn_table_eq_or_set v d m with heq | ⟨tok2, s2, _, hg2, heq⟩
    · simp [heq, hget, hp]
    · rw [heq]
      by_cases he : tok = tok2
      · subst he
        simp [mapGet_mapSet_self]
      · rw [mapGet_mapSet_ne _ _ _ _ he, hget]
        simp [hp]
  · intro t
    rw [checkContinue_table_eq, hget]
    simp [hp]

/-- C2 witness: concrete instances of all three operations on a
purchased session. -/
theorem purchased_flag_monotone_witness :
    (mapGet (createSession (JVal.jnum 1) "u" [("t", ⟨some 2, true⟩)]).2 "t").map
      Session.hasPurchasedContinue = some true ∧
    (mapGet (handlePaymentNotification (.ok "VERIFIED")
        ⟨some "Completed", some "1.99", some "USD", some "t"⟩
        [("t", ⟨some 2, true⟩)]).2 "t").map
      Session.hasPurchasedContinue = some true ∧
    (mapGet (checkContinue "t" [("t", ⟨some 2, true⟩)]).2 "t").map
      Session.hasPurchasedContinue = some true := by
  have h := purchased_flag_monotone [("t", ⟨some 2, true⟩)] "t" ⟨some 2, true⟩
    (by decide) rfl
  exact ⟨h.1 (JVal.jnum 1) "u" (by decide),
    h.2.1 (.ok "VERIFIED") ⟨some "Completed", some "1.99", some "USD", some "t"⟩,
    h.2.2 "t"⟩

/-- C5: for a valid level input (truthy, and coercing to an integer),
create-session returns the freshly generated token, and an immediate
check-continue on that token answers `purchased = false` with the level
equal to the integer coercion of the input. -/
theorem create_then_check (lvl : JVal) (ft : String) (m : SessionMap) (n : Int)
    (hvalid : truthy lvl = true) (hn : jsParseInt lvl = some n) (hft : ft ≠ "") :
    (createSession lvl ft m).1 = .okToken ft ∧
    (checkContinue ft (createSession lvl ft m).2).1 =
      .okSession false (some n) := by
  have hhas := mapHas_mapSet_self m ft
    { level := some n, hasPurchasedContinue := false }
  have hget := mapGet_mapSet_self m ft
    { level := some n, hasPurchasedContinue := false }
  refine ⟨by simp [createSession, hvalid], ?_⟩
  simp [createSession, checkContinue, hvalid, hft, hhas, hget, hn]

/-- C5 witness: level 7 on an empty table. -/
theorem create_then_check_witness :
    (createSession (JVal.jnum 7) "u" []).1 = .okToken "u" ∧
    (checkContinue "u" (createSession (JVal.jnum 7) "u" []).2).1 =
      .okSession false (some 7) :=
  create_then_check (JVal.jnum 7) "u" [] 7 (by decide) (by decide) (by decide)

/-- C6 counterexample: a request body carrying `level = 0` has the
level field present (it is not `undefined`), yet create-session answers
`ValidationError` — refuting "fails if and only if the level field is
absent". -/
theorem create_session_zero_level_rejected :
    (createSession (JVal.jnum 0) "a" []).1 = CreateResult.validationError ∧
    JVal.jnum 0 ≠ JVal.jundef := by decide

/-- C6 amended: create-session fails with `ValidationError` if and only
if the level value is falsy (absent, `null`, `false`, `0` or `""`);
whenever the level is truthy, a session with `purchased = false` is
stored under the fresh token and the token is returned. -/
theorem create_session_falsy_gate (lvl : JVal) (ft : String) (m : SessionMap) :
    ((createSession lvl ft m).1 = CreateResult.validationError ↔
      truthy lvl = false) ∧
    ((createSession lvl ft m).2 =
      if truthy lvl then
        mapSet m ft { level := jsParseInt lvl, hasPurchasedContinue := false }
      else m) ∧
    (truthy lvl = true → (createSession lvl ft m).1 = .okToken ft) := by
  cases h : truthy lvl <;> simp [createSession, h]

/-- C6 witness: a truthy level yields the fresh token. -/
theorem create_session_falsy_gate_witness :
    (createSession (JVal.jnum 5) "t" []).1 = CreateResult.okToken "t" :=
  (create_session_falsy_gate (JVal.jnum 5) "t" []).2.2 (by decide)

/-- C7: for every nonempty token (the router never yields an empty path
segment), check-continue answers 404 not-found exactly when the token
is not a key of the table, and in every case the table after the call
equals the table before — the session it reads is never deleted. -/
theorem check_continue_not_found_iff (token : String) (m : SessionMap)
    (h : token ≠ "") :
    ((checkContinue token m).1 = CheckResult.notFound ↔
      mapHas m token = false) ∧
    ((checkContinue token m).1.status = 404 ↔ mapHas m token = false) ∧
    (checkContinue token m).2 = m := by
  refine ⟨?_, ?_, checkContinue_table_eq token m⟩ <;>
    (cases hh : mapHas m token
     · simp [checkContinue, CheckResult.status, h, hh]
     · have hsome : (mapGet m token).isSome := by
         rw [← mapHas_eq_isSome, hh]
       obtain ⟨s, hs⟩ := Option.isSome_iff_exists.mp hsome
       simp [checkContinue, CheckResult.status, h, hh, hs])

/-- C7 witness: an unknown token on a nonempty table. -/
theorem check_continue_not_found_iff_witness :
    ((checkContinue "x" [("t", ⟨some 2, false⟩)]).1 = CheckResult.notFound ↔
      mapHas [("t", ⟨some 2, false⟩)] "x" = false) ∧
    ((checkContinue "x" [("t", ⟨some 2, false⟩)]).1.status = 404 ↔
      mapHas [("t", ⟨some 2, false⟩)] "x" = false) ∧
    (checkContinue "x" [("t", ⟨some 2, false⟩)]).2 = [("t", ⟨some 2, false⟩)] :=
  check_continue_not_found_iff "x" [("t", ⟨some 2, false⟩)] (by decide)

/-- C8 counterexample: a request with `score = 0` has the score field
present (it is not `undefined`), yet submit-score answers
`ValidationError` — refuting "fails if and only if score or player_name
is missing". -/
theorem submit_score_zero_rejected :
    (submitScore ⟨JVal.jnum 0, JVal.jstr "ace", JVal.jundef⟩
        (Except.ok ⟨true, "rec"⟩)).1 = SubmitResult.validationError ∧
    JVal.jnum 0 ≠ JVal.jundef := by decide

/-- C8 amended: submit-score fails with `ValidationError` if and only
if `score` or `player_name` is falsy (absent, `null`, `false`, `0` or
`""`); when both are truthy it forwards exactly
`{score, player_name, level}` to the store, with `level` the provided
value when that value is truthy and the number `1` otherwise. -/
theorem submit_score_falsy_gate (b : ScoreBody) (store : Except Unit StoreReply) :
    ((submitScore b store).1 = SubmitResult.validationError ↔
      (truthy b.score = false ∨ truthy b.player_name = false)) ∧
    (truthy b.score = true → truthy b.player_name = true →
      (submitScore b store).2 =
        some { score := b.score, player_name := b.player_name,
               level := if truthy b.level then b.level else JVal.jnum 1 }) := by
  cases h1 : truthy b.score <;> cases h2 : truthy b.player_name
  · simp [submitScore, h1]
  · simp [submitScore, h1]
  · simp [submitScore, h1, h2]
  · refine ⟨?_, fun _ _ => ?_⟩ <;>
      (cases store with
       | error e => simp [submitScore, h1, h2]
       | ok r => cases hr : r.ok <;> simp [submitScore, h1, h2, hr])

/-- C8 witness: `score = 100`, `player_name = "ace"` and no level
forwards `level = 1` to the store. -/
theorem submit_score_falsy_gate_witness :
    (submitScore ⟨JVal.jnum 100, JVal.jstr "ace", JVal.jundef⟩
        (Except.ok ⟨true, "rec"⟩)).2 =
      some ⟨JVal.jnum 100, JVal.jstr "ace", JVal.jnum 1⟩ :=
  (submit_score_falsy_gate ⟨JVal.jnum 100, JVal.jstr "ace", JVal.jundef⟩
      (Except.ok ⟨true, "rec"⟩)).2 (by decide) (by decide)

/-- C9: whenever the store interaction fails — a thrown transport error
or a non-success response status — list-scores answers the generic 500
`UpstreamError` body, and submit-score (on validated input) does the
same; the sanitized bodies are fixed strings carrying no upstream
detail, and neither operation returns data. -/
theorem upstream_failure_generic_500 (store : Except Unit StoreReply)
    (h : storeFailed store = true) :
    listScores store = ListResult.upstreamError ∧
    (listScores store).status = 500 ∧
    (listScores store).body = "Failed to fetch high scores" ∧
    ∀ b : ScoreBody, truthy b.score = true → truthy b.player_name = true →
      (submitScore b store).1 = SubmitResult.upstreamError ∧
      (submitScore b store).1.status = 500 ∧
      (submitScore b store).1.body = "Failed to save high score" := by
  have hls : listScores store = ListResult.upstreamError := by
    cases store with
    | error e => rfl
    | ok r =>
      have hr : r.ok = false := by simpa [storeFailed] using h
      simp [listScores, hr]
  refine ⟨hls, by rw [hls]; rfl, by rw [hls]; rfl, ?_⟩
  intro b h1 h2
  have hsub : (submitScore b store).1 = SubmitResult.upstreamError := by
    cases store with
    | error e => simp [submitScore, h1, h2]
    | ok r =>
      have hr : r.ok = false := by simpa [storeFailed] using h
      simp [submitScore, h1, h2, hr]
  exact ⟨hsub, by rw [hsub]; rfl, by rw [hsub]; rfl⟩

/-- C9 witness: a non-success store response whose body carries an
upstream detail that never reaches the caller. -/
theorem upstream_failure_generic_500_witness :
    listScores (Except.ok ⟨false, "upstream detail"⟩) =
      ListResult.upstreamError ∧
    (listScores (Except.ok ⟨false, "upstream detail"⟩)).body =
      "Failed to fetch high scores" ∧
    (submitScore ⟨JVal.jnum 7, JVal.jstr "bo", JVal.jundef⟩
        (Except.ok ⟨false, "upstream detail"⟩)).1.body =
      "Failed to save high score" := by
  have h := upstream_failure_generic_500 (Except.ok ⟨false, "upstream detail"⟩)
    (by decide)
  exact ⟨h.1, h.2.2.1,
    (h.2.2.2 ⟨JVal.jnum 7, JVal.jstr "bo", JVal.jundef⟩
      (by decide) (by decide)).2.2⟩

end Server
